import Mathlib

/-!
Verification of the influbee-backend ledger and billing engine.

The definitions below are a shallow embedding of the wallet/billing code:
  - backend/src/wallet/wallet.service.ts   (WalletService)
  - src/chat/chat.module.ts                (GooglePayService part)
  - src/billing/billing.service.ts         (BillingService)
  - src/auth/auth.service.ts               (register, wallet-account creation)
  - backend/prisma/migrations/20250710155156_init/migration.sql (data model)

Monetary amounts are integer minor units (paisa); the Prisma Decimal columns
only ever hold integer values in this code base.  Database rows are lists,
Prisma findFirst is List.find?, and prisma.$transaction blocks become pure
state-to-state functions: an operation either returns the post-commit state
or an error with no state change (matching transactional rollback).
Randomly generated ids (cuid, Date.now suffixes) are modelled by a
deterministic fresh-id counter, which is faithful because no operation ever
parses or compares the generated strings.
-/

namespace Influbee

/-- prisma enum AccountType. -/
inductive AccountType
  | USER_WALLET
  | INFLUENCER_WALLET
  | REVENUE
  | ESCROW
  | PAYMENT_GATEWAY_LIABILITY
  deriving DecidableEq, Repr

/-- prisma enum TransactionType. -/
inductive TransactionType
  | CALL_PAYMENT
  | CHAT_PAYMENT
  | TOP_UP
  | REFUND
  | WITHDRAWAL
  | HOLD_FUNDS
  | SETTLE_FUNDS
  deriving DecidableEq, Repr

/-- prisma enum TransactionStatus. -/
inductive TransactionStatus
  | PENDING
  | HELD
  | COMPLETED
  | FAILED
  | CANCELLED
  deriving DecidableEq, Repr

/-- prisma enum EntryDirection. -/
inductive EntryDirection
  | DEBIT
  | CREDIT
  deriving DecidableEq, Repr

/-- prisma enum CallType. -/
inductive CallType
  | VOICE
  | VIDEO
  deriving DecidableEq, Repr

/-- prisma enum UserRole. -/
inductive UserRole
  | USER
  | INFLUENCER
  deriving DecidableEq, Repr

/-- accounts table: id, userId (nullable for system accounts), accountType,
balance (integer minor units; Int because nothing in the storage layer
prevents negative balances). -/
structure Account where
  id : Nat
  userId : Option String
  accountType : AccountType
  balance : Int
  deriving DecidableEq, Repr

/-- transactions table (the fields the wallet code reads or writes). -/
structure Transaction where
  id : Nat
  idempotencyKey : Option String
  type : TransactionType
  status : TransactionStatus
  referenceId : Option String
  userId : String
  amount : Nat
  deriving DecidableEq, Repr

/-- entries table: one debit or credit leg of a transaction. -/
structure Entry where
  id : Nat
  transactionId : Nat
  accountId : Nat
  amount : Nat
  direction : EntryDirection
  deriving DecidableEq, Repr

/-- The persistent store the wallet code touches, plus a fresh-id counter
standing in for generated cuids. -/
structure LedgerState where
  accounts : List Account
  transactions : List Transaction
  entries : List Entry
  nextId : Nat
  deriving DecidableEq, Repr

/-- Errors thrown by the wallet/google-pay code, one constructor per
distinct thrown message. -/
inductive WalletError
  | insufficientBalance
  | requiredAccountsNotFound
  | insufficientBalanceForCall
  | receiverAccountNotFound
  | userAccountNotFound
  | belowMinimumTopUp
  | paymentVerificationFailed
  | belowMinimumWithdrawal
  | aboveMaximumWithdrawal
  | insufficientBalanceForWithdrawal
  | userWalletNotFound
  deriving DecidableEq, Repr

/-- where: \x7b userId \x7d (prisma filter used by getBalance,
holdFundsForCall, settleCallCharges, refundHeldFunds). -/
def userPred (uid : String) (a : Account) : Bool :=
  a.userId = some uid

/-- where: \x7b userId, accountType \x7d (filter used by processMessagePayment,
processCallPayment, addMoneyToWallet, deductMoneyFromWallet). -/
def userTypePred (uid : String) (t : AccountType) (a : Account) : Bool :=
  a.userId = some uid && a.accountType = t

/-- where: \x7b accountType \x7d (the REVENUE lookup). -/
def typePred (t : AccountType) (a : Account) : Bool :=
  a.accountType = t

/-- Account row with the given primary key. -/
def idPred (aid : Nat) (a : Account) : Bool :=
  a.id = aid

def findAccountByUser (s : LedgerState) (uid : String) : Option Account :=
  s.accounts.find? (userPred uid)

def findAccountByUserType (s : LedgerState) (uid : String) (t : AccountType) : Option Account :=
  s.accounts.find? (userTypePred uid t)

def findRevenueAccount (s : LedgerState) : Option Account :=
  s.accounts.find? (typePred .REVENUE)

/-- prisma account.update balance increment/decrement on one row id. -/
def updAcc (aid : Nat) (delta : Int) (a : Account) : Account :=
  if a.id = aid then { a with balance := a.balance + delta } else a

def updateBalance (accounts : List Account) (aid : Nat) (delta : Int) : List Account :=
  accounts.map (updAcc aid delta)

/-- Balance of the first account row with the given id (0 when absent). -/
def balanceInList (l : List Account) (aid : Nat) : Int :=
  match l.find? (idPred aid) with
  | some a => a.balance
  | none => 0

def balanceOfId (s : LedgerState) (aid : Nat) : Int :=
  balanceInList s.accounts aid

/-- WalletService.getBalance: findFirst by userId only, 0 when no account. -/
def getBalance (s : LedgerState) (uid : String) : Int :=
  match findAccountByUser s uid with
  | some a => a.balance
  | none => 0

/-- Balance of the user's USER_WALLET account (the account addMoneyToWallet
credits), 0 when absent. -/
def userWalletBalance (s : LedgerState) (uid : String) : Int :=
  match findAccountByUserType s uid .USER_WALLET with
  | some a => a.balance
  | none => 0

/-- BillingService rates (config defaults PRICE_PER_MINUTE_VIDEO = 500,
PRICE_PER_MINUTE_VOICE = 350), also inlined in settleCallCharges. -/
def ratePerMinute : CallType → Nat
  | .VIDEO => 500
  | .VOICE => 350

/-- BillingService.calculateActualCallCost: Math.ceil(durationInSeconds / 60)
times the per-minute rate; for a natural number of seconds the JS ceiling is
exactly (d + 59) / 60 in natural division. -/
def calculateActualCallCost (durationInSeconds : Nat) (callType : CallType) : Nat :=
  ((durationInSeconds + 59) / 60) * ratePerMinute callType

/-- Math.floor(amount * 0.9) as computed in processMessagePayment and
processCallPayment; on the integer paisa amounts this code handles the JS
double expression equals the exact rational floor, i.e. amount * 9 / 10. -/
def receiverShareOf (amount : Nat) : Nat :=
  amount * 9 / 10

/-- revenueAmount = amount - receiverAmount. -/
def revenueShareOf (amount : Nat) : Nat :=
  amount - receiverShareOf amount

/-- WalletService.processMessagePayment: looks up sender and receiver
USER_WALLET accounts and the REVENUE account, checks the sender can cover
the amount, then atomically creates one COMPLETED CHAT_PAYMENT transaction,
three entries (debit sender, credit receiver 90 percent, credit revenue the
remainder) and applies the three balance updates. -/
def processMessagePayment (s : LedgerState) (senderId receiverId : String) (amount : Nat) :
    Except WalletError LedgerState :=
  match findAccountByUserType s senderId .USER_WALLET with
  | none => .error .requiredAccountsNotFound
  | some senderAccount =>
    match findAccountByUserType s receiverId .USER_WALLET with
    | none => .error .requiredAccountsNotFound
    | some receiverAccount =>
      match findRevenueAccount s with
      | none => .error .requiredAccountsNotFound
      | some revenueAccount =>
        if senderAccount.balance < (amount : Int) then
          .error .insufficientBalance
        else
          let receiverAmount := receiverShareOf amount
          let revenueAmount := revenueShareOf amount
          let txn : Transaction :=
            { id := s.nextId, idempotencyKey := some ("msg_" ++ toString s.nextId),
              type := .CHAT_PAYMENT, status := .COMPLETED, referenceId := none,
              userId := senderId, amount := amount }
          let e1 : Entry :=
            { id := s.nextId + 1, transactionId := txn.id, accountId := senderAccount.id,
              amount := amount, direction := .DEBIT }
          let e2 : Entry :=
            { id := s.nextId + 2, transactionId := txn.id, accountId := receiverAccount.id,
              amount := receiverAmount, direction := .CREDIT }
          let e3 : Entry :=
            { id := s.nextId + 3, transactionId := txn.id, accountId := revenueAccount.id,
              amount := revenueAmount, direction := .CREDIT }
          .ok { accounts :=
                  updateBalance (updateBalance (updateBalance s.accounts
                    senderAccount.id (-(amount : Int)))
                    receiverAccount.id (receiverAmount : Int))
                    revenueAccount.id (revenueAmount : Int),
                transactions := txn :: s.transactions,
                entries := e1 :: e2 :: e3 :: s.entries,
                nextId := s.nextId + 4 }

/-- WalletService.processCallPayment: same account lookups and entry/balance
structure as processMessagePayment but with NO balance check on the
initiator; when refundAmount is positive it additionally creates a REFUND
transaction with a single CREDIT entry back to the initiator. -/
def processCallPayment (s : LedgerState) (initiatorId receiverId : String)
    (amount refundAmount : Nat) (callId : String) :
    Except WalletError LedgerState :=
  match findAccountByUserType s initiatorId .USER_WALLET with
  | none => .error .requiredAccountsNotFound
  | some initiatorAccount =>
    match findAccountByUserType s receiverId .USER_WALLET with
    | none => .error .requiredAccountsNotFound
    | some receiverAccount =>
      match findRevenueAccount s with
      | none => .error .requiredAccountsNotFound
      | some revenueAccount =>
        let receiverAmount := receiverShareOf amount
        let revenueAmount := revenueShareOf amount
        let txn : Transaction :=
          { id := s.nextId, idempotencyKey := some ("call_" ++ callId),
            type := .CALL_PAYMENT, status := .COMPLETED, referenceId := some callId,
            userId := initiatorId, amount := amount }
        let e1 : Entry :=
          { id := s.nextId + 1, transactionId := txn.id, accountId := initiatorAccount.id,
            amount := amount, direction := .DEBIT }
        let e2 : Entry :=
          { id := s.nextId + 2, transactionId := txn.id, accountId := receiverAccount.id,
            amount := receiverAmount, direction := .CREDIT }
        let e3 : Entry :=
          { id := s.nextId + 3, transactionId := txn.id, accountId := revenueAccount.id,
            amount := revenueAmount, direction := .CREDIT }
        let accounts1 :=
          updateBalance (updateBalance (updateBalance s.accounts
            initiatorAccount.id (-(amount : Int)))
            receiverAccount.id (receiverAmount : Int))
            revenueAccount.id (revenueAmount : Int)
        if 0 < refundAmount then
          let refundTxn : Transaction :=
            { id := s.nextId + 4, idempotencyKey := some ("call_" ++ callId ++ "_refund"),
              type := .REFUND, status := .COMPLETED, referenceId := some callId,
              userId := initiatorId, amount := refundAmount }
          let e4 : Entry :=
            { id := s.nextId + 5, transactionId := refundTxn.id,
              accountId := initiatorAccount.id, amount := refundAmount, direction := .CREDIT }
          .ok { accounts := updateBalance accounts1 initiatorAccount.id (refundAmount : Int),
                transactions := refundTxn :: txn :: s.transactions,
                entries := e4 :: e1 :: e2 :: e3 :: s.entries,
                nextId := s.nextId + 6 }
        else
          .ok { accounts := accounts1,
                transactions := txn :: s.transactions,
                entries := e1 :: e2 :: e3 :: s.entries,
                nextId := s.nextId + 4 }

/-- WalletService.holdFundsForCall: one thrown message covers both a missing
account and a low balance; on success it creates a HELD HOLD_FUNDS
transaction with NO entries and decrements the balance. -/
def holdFundsForCall (s : LedgerState) (userId : String) (estimatedAmount : Nat)
    (callId : String) : Except WalletError LedgerState :=
  match findAccountByUser s userId with
  | none => .error .insufficientBalanceForCall
  | some userAccount =>
    if userAccount.balance < (estimatedAmount : Int) then
      .error .insufficientBalanceForCall
    else
      let txn : Transaction :=
        { id := s.nextId, idempotencyKey := none, type := .HOLD_FUNDS, status := .HELD,
          referenceId := some callId, userId := userId, amount := estimatedAmount }
      .ok { accounts := updateBalance s.accounts userAccount.id (-(estimatedAmount : Int)),
            transactions := txn :: s.transactions,
            entries := s.entries,
            nextId := s.nextId + 1 }

/-- WalletService.settleCallCharges: computes the charge from the actual
duration, looks up only the RECEIVER account (it never looks for a HELD
transaction and never debits anyone), creates a COMPLETED CALL_PAYMENT
transaction with NO entries and increments the receiver's balance. -/
def settleCallCharges (s : LedgerState) (callId : String) (actualDuration : Nat)
    (callType : CallType) (callerId receiverId : String) :
    Except WalletError LedgerState :=
  let actualCharge := ((actualDuration + 59) / 60) * ratePerMinute callType
  match findAccountByUser s receiverId with
  | none => .error .receiverAccountNotFound
  | some receiverAccount =>
    let txn : Transaction :=
      { id := s.nextId, idempotencyKey := none, type := .CALL_PAYMENT, status := .COMPLETED,
        referenceId := some callId, userId := callerId, amount := actualCharge }
    .ok { accounts := updateBalance s.accounts receiverAccount.id (actualCharge : Int),
          transactions := txn :: s.transactions,
          entries := s.entries,
          nextId := s.nextId + 1 }

/-- WalletService.refundHeldFunds: looks up only the user's account (no HELD
transaction lookup, no resolved-hold check), creates a COMPLETED REFUND
transaction with NO entries and increments the balance. -/
def refundHeldFunds (s : LedgerState) (callId : String) (userId : String)
    (refundAmount : Nat) : Except WalletError LedgerState :=
  match findAccountByUser s userId with
  | none => .error .userAccountNotFound
  | some userAccount =>
    let txn : Transaction :=
      { id := s.nextId, idempotencyKey := none, type := .REFUND, status := .COMPLETED,
        referenceId := some callId, userId := userId, amount := refundAmount }
    .ok { accounts := updateBalance s.accounts userAccount.id (refundAmount : Int),
          transactions := txn :: s.transactions,
          entries := s.entries,
          nextId := s.nextId + 1 }

/-- GooglePayService.addMoneyToWallet: find-or-create the USER_WALLET
account, then one CREDIT entry and one balance increment. -/
def addMoneyToWallet (s : LedgerState) (userId : String) (amount : Nat)
    (transactionId : Nat) : LedgerState :=
  match findAccountByUserType s userId .USER_WALLET with
  | some userAccount =>
    let e : Entry :=
      { id := s.nextId, transactionId := transactionId, accountId := userAccount.id,
        amount := amount, direction := .CREDIT }
    { s with accounts := updateBalance s.accounts userAccount.id (amount : Int),
             entries := e :: s.entries,
             nextId := s.nextId + 1 }
  | none =>
    let newAccount : Account :=
      { id := s.nextId, userId := some userId, accountType := .USER_WALLET, balance := 0 }
    let e : Entry :=
      { id := s.nextId + 1, transactionId := transactionId, accountId := newAccount.id,
        amount := amount, direction := .CREDIT }
    { s with accounts := updateBalance (newAccount :: s.accounts) newAccount.id (amount : Int),
             entries := e :: s.entries,
             nextId := s.nextId + 2 }

/-- GooglePayService.processPayment (top-up): validates the minimum amount
and the (mocked) gateway verification, then creates a COMPLETED TOP_UP
transaction WITHOUT an idempotency key and with no duplicate check on the
payment reference, and credits the wallet.  paymentRef stands for the
caller-supplied payment data / reference, which the code only stores in
metadata and never uses for deduplication. -/
def processPayment (s : LedgerState) (userId : String) (amount : Nat)
    (minTopUpAmount : Nat) (_paymentRef : String) (paymentVerified : Bool) :
    Except WalletError LedgerState :=
  if amount < minTopUpAmount then .error .belowMinimumTopUp
  else if paymentVerified = false then .error .paymentVerificationFailed
  else
    let txn : Transaction :=
      { id := s.nextId, idempotencyKey := none, type := .TOP_UP, status := .COMPLETED,
        referenceId := none, userId := userId, amount := amount }
    let s1 : LedgerState :=
      { s with transactions := txn :: s.transactions, nextId := s.nextId + 1 }
    .ok (addMoneyToWallet s1 userId amount txn.id)

/-- GooglePayService.deductMoneyFromWallet: one DEBIT entry and one balance
decrement against the USER_WALLET account. -/
def deductMoneyFromWallet (s : LedgerState) (userId : String) (amount : Nat)
    (transactionId : Nat) : Except WalletError LedgerState :=
  match findAccountByUserType s userId .USER_WALLET with
  | none => .error .userWalletNotFound
  | some userAccount =>
    let e : Entry :=
      { id := s.nextId, transactionId := transactionId, accountId := userAccount.id,
        amount := amount, direction := .DEBIT }
    .ok { s with accounts := updateBalance s.accounts userAccount.id (-(amount : Int)),
                 entries := e :: s.entries,
                 nextId := s.nextId + 1 }

/-- transaction.update setting status COMPLETED on one row. -/
def markCompleted (s : LedgerState) (txnId : Nat) : LedgerState :=
  { s with transactions :=
      s.transactions.map (fun t => if t.id = txnId then { t with status := .COMPLETED } else t) }

/-- GooglePayService.processWithdrawal: min and max bound checks, then a
balance check via WalletService.getBalance, all before any write; then a
PENDING WITHDRAWAL transaction, the wallet deduction, and the status flip to
COMPLETED.  The result pair records both the outcome and the committed
state: the PENDING transaction row is created outside the deduction's
transactional unit, so a deduction failure leaves it committed. -/
def processWithdrawal (s : LedgerState) (userId : String) (amount : Nat)
    (minWithdrawalAmount maxWithdrawalAmount : Nat) :
    Except WalletError Unit × LedgerState :=
  if amount < minWithdrawalAmount then (.error .belowMinimumWithdrawal, s)
  else if maxWithdrawalAmount < amount then (.error .aboveMaximumWithdrawal, s)
  else if getBalance s userId < (amount : Int) then
    (.error .insufficientBalanceForWithdrawal, s)
  else
    let txn : Transaction :=
      { id := s.nextId, idempotencyKey := none, type := .WITHDRAWAL, status := .PENDING,
        referenceId := none, userId := userId, amount := amount }
    let s1 : LedgerState :=
      { s with transactions := txn :: s.transactions, nextId := s.nextId + 1 }
    match deductMoneyFromWallet s1 userId amount txn.id with
    | .error e => (.error e, s1)
    | .ok s2 => (.ok (), markCompleted s2 txn.id)

/-- The wallet-account creation inside AuthService.register: influencers get
an INFLUENCER_WALLET, users a USER_WALLET seeded with 10000. -/
def registerWalletAccount (s : LedgerState) (userId : String) (role : UserRole) :
    LedgerState :=
  let account : Account :=
    { id := s.nextId, userId := some userId,
      accountType := if role = .INFLUENCER then .INFLUENCER_WALLET else .USER_WALLET,
      balance := if role = .USER then 10000 else 0 }
  { s with accounts := account :: s.accounts, nextId := s.nextId + 1 }

/-- Sum of entry amounts for one transaction in one direction. -/
def entrySumTxn (entries : List Entry) (txId : Nat) (d : EntryDirection) : Nat :=
  ((entries.filter (fun e => e.transactionId = txId && e.direction = d)).map Entry.amount).sum

/-- Sum of entry amounts against one account in one direction (as Int, to
compare with balances). -/
def entrySumAcc (entries : List Entry) (aid : Nat) (d : EntryDirection) : Int :=
  (((entries.filter (fun e => e.accountId = aid && e.direction = d)).map Entry.amount).sum : Nat)

/-- How far an account's cached balance is from the net of its entries; the
balance-entry consistency invariant says this is 0. -/
def discrepancy (s : LedgerState) (aid : Nat) : Int :=
  balanceOfId s aid - (entrySumAcc s.entries aid .CREDIT - entrySumAcc s.entries aid .DEBIT)

/-! ### Concrete states used below -/

/-- A fresh store. -/
def emptyState : LedgerState := ⟨[], [], [], 0⟩

/-- A store with two user wallets and the revenue account, as seeded for the
chat-payment scenario of the spec (alice holds 10000 paisa). -/
def threeAccountState : LedgerState :=
  ⟨[⟨0, some "alice", .USER_WALLET, 10000⟩,
    ⟨1, some "bob", .USER_WALLET, 0⟩,
    ⟨2, none, .REVENUE, 0⟩], [], [], 3⟩

/-! ### List-level helper lemmas -/

theorem updAcc_id (aid : Nat) (delta : Int) (a : Account) :
    (updAcc aid delta a).id = a.id := by
  unfold updAcc; split <;> rfl

theorem updAcc_userId (aid : Nat) (delta : Int) (a : Account) :
    (updAcc aid delta a).userId = a.userId := by
  unfold updAcc; split <;> rfl

theorem updAcc_accountType (aid : Nat) (delta : Int) (a : Account) :
    (updAcc aid delta a).accountType = a.accountType := by
  unfold updAcc; split <;> rfl

theorem idPred_updAcc (aid x : Nat) (delta : Int) (a : Account) :
    idPred x (updAcc aid delta a) = idPred x a := by
  unfold idPred; rw [updAcc_id]

theorem userPred_updAcc (uid : String) (aid : Nat) (delta : Int) (a : Account) :
    userPred uid (updAcc aid delta a) = userPred uid a := by
  unfold userPred; rw [updAcc_userId]

theorem userTypePred_updAcc (uid : String) (t : AccountType) (aid : Nat) (delta : Int)
    (a : Account) :
    userTypePred uid t (updAcc aid delta a) = userTypePred uid t a := by
  unfold userTypePred; rw [updAcc_userId, updAcc_accountType]

/-- find? with a balance-insensitive predicate commutes with a balance
update. -/
theorem find?_updateBalance (l : List Account) (aid : Nat) (delta : Int)
    (p : Account → Bool) (hp : ∀ a, p (updAcc aid delta a) = p a) :
    (updateBalance l aid delta).find? p = (l.find? p).map (updAcc aid delta) := by
  induction l with
  | nil => rfl
  | cons b l ih =>
    by_cases hb : p b = true
    · rw [updateBalance, List.map_cons,
        List.find?_cons_of_pos _ (by rw [hp]; exact hb),
        List.find?_cons_of_pos _ hb, Option.map_some']
    · rw [updateBalance, List.map_cons,
        List.find?_cons_of_neg _ (by rw [hp]; exact hb),
        List.find?_cons_of_neg _ hb]
      exact ih

theorem find?_idPred_isSome_of_mem {l : List Account} {a : Account} (h : a ∈ l) :
    (l.find? (idPred a.id)).isSome := by
  rw [List.find?_isSome]
  exact ⟨a, h, by simp [idPred]⟩

theorem isSome_find?_updateBalance (l : List Account) (aid x : Nat) (delta : Int) :
    ((updateBalance l aid delta).find? (idPred x)).isSome = (l.find? (idPred x)).isSome := by
  rw [find?_updateBalance l aid delta (idPred x) (idPred_updAcc aid x delta)]
  exact Option.isSome_map

theorem balanceInList_updateBalance_ne (l : List Account) (aid x : Nat) (delta : Int)
    (h : x ≠ aid) :
    balanceInList (updateBalance l aid delta) x = balanceInList l x := by
  unfold balanceInList
  rw [find?_updateBalance l aid delta (idPred x) (idPred_updAcc aid x delta)]
  cases hf : l.find? (idPred x) with
  | none => rfl
  | some a =>
    have ha : a.id = x := by
      have := List.find?_some hf
      simpa [idPred] using this
    simp [updAcc, ha, h]

theorem balanceInList_updateBalance_self (l : List Account) (aid : Nat) (delta : Int)
    (h : (l.find? (idPred aid)).isSome) :
    balanceInList (updateBalance l aid delta) aid = balanceInList l aid + delta := by
  unfold balanceInList
  rw [find?_updateBalance l aid delta (idPred aid) (idPred_updAcc aid aid delta)]
  cases hf : l.find? (idPred aid) with
  | none => rw [hf] at h; simp at h
  | some a =>
    have ha : a.id = aid := by
      have := List.find?_some hf
      simpa [idPred] using this
    simp [updAcc, ha]

/-- Unified form: a balance update moves the read-back balance of row x by
delta exactly when row x exists and is the updated row. -/
theorem balanceInList_updateBalance (l : List Account) (aid x : Nat) (delta : Int) :
    balanceInList (updateBalance l aid delta) x
      = balanceInList l x
        + (if (l.find? (idPred x)).isSome ∧ x = aid then delta else 0) := by
  by_cases hx : x = aid
  · subst hx
    by_cases h : (l.find? (idPred x)).isSome
    · rw [balanceInList_updateBalance_self l x delta h]
      simp [h]
    · have hf : l.find? (idPred x) = none := by
        cases hf : l.find? (idPred x) with
        | none => rfl
        | some a => rw [hf] at h; simp at h
      unfold balanceInList
      rw [find?_updateBalance l x delta (idPred x) (idPred_updAcc x x delta), hf]
      simp [h]
  · rw [balanceInList_updateBalance_ne l aid x delta hx]
    simp [hx]

theorem entrySumTxn_cons (e : Entry) (l : List Entry) (t : Nat) (d : EntryDirection) :
    entrySumTxn (e :: l) t d
      = (if e.transactionId = t ∧ e.direction = d then e.amount else 0)
        + entrySumTxn l t d := by
  unfold entrySumTxn
  rw [List.filter_cons]
  by_cases h1 : e.transactionId = t <;> by_cases h2 : e.direction = d <;>
    simp [h1, h2]

theorem entrySumTxn_eq_zero (l : List Entry) (t : Nat) (d : EntryDirection)
    (h : ∀ e ∈ l, e.transactionId ≠ t) : entrySumTxn l t d = 0 := by
  induction l with
  | nil => rfl
  | cons e l ih =>
    rw [entrySumTxn_cons]
    have he : e.transactionId ≠ t := h e (by simp)
    rw [if_neg (by rintro ⟨h1, -⟩; exact he h1)]
    rw [ih (fun e2 he2 => h e2 (List.mem_cons_of_mem e he2))]

theorem entrySumAcc_cons (e : Entry) (l : List Entry) (aid : Nat) (d : EntryDirection) :
    entrySumAcc (e :: l) aid d
      = (if e.accountId = aid ∧ e.direction = d then (e.amount : Int) else 0)
        + entrySumAcc l aid d := by
  unfold entrySumAcc
  rw [List.filter_cons]
  by_cases h1 : e.accountId = aid <;> by_cases h2 : e.direction = d <;>
    simp [h1, h2]

theorem receiverShareOf_le (n : Nat) : receiverShareOf n ≤ n := by
  unfold receiverShareOf; omega

theorem receiverShareOf_add_revenueShareOf (n : Nat) :
    receiverShareOf n + revenueShareOf n = n := by
  unfold revenueShareOf receiverShareOf; omega

/-- Natural ceiling division by 60 agrees with the rational ceiling. -/
theorem ceil_div_sixty (d : Nat) : ⌈(d : ℚ) / 60⌉₊ = (d + 59) / 60 := by
  apply le_antisymm
  · rw [Nat.ceil_le, div_le_iff₀ (by norm_num : (0 : ℚ) < 60)]
    have h : d ≤ ((d + 59) / 60) * 60 := by omega
    exact_mod_cast h
  · have h1 : (d : ℚ) / 60 ≤ (⌈(d : ℚ) / 60⌉₊ : ℚ) := Nat.le_ceil _
    rw [div_le_iff₀ (by norm_num : (0 : ℚ) < 60)] at h1
    have h2 : d ≤ ⌈(d : ℚ) / 60⌉₊ * 60 := by exact_mod_cast h1
    omega

/-! ### Claim C7 -/

/-- C7: for every gross amount G, the split used by processMessagePayment
and processCallPayment returns a payee share equal to floor(G times 0.9)
and the payee share plus the platform fee always sums back to exactly G. -/
theorem split_correct (G : Nat) :
    receiverShareOf G + revenueShareOf G = G
      ∧ receiverShareOf G = ⌊(G : ℚ) * 0.9⌋₊ := by
  refine ⟨receiverShareOf_add_revenueShareOf G, ?_⟩
  have h09 : (0.9 : ℚ) = 9 / 10 := by norm_num
  have hmul : (G : ℚ) * 0.9 = ((G * 9 : Nat) : ℚ) / ((10 : Nat) : ℚ) := by
    rw [h09]; push_cast; ring
  rw [hmul, Nat.floor_div_nat, Nat.floor_natCast]
  rfl

/-! ### Claim C8 -/

/-- C8: for every duration in seconds and call kind, the settled call cost
is the rational ceiling of duration over 60 times the per-minute rate;
partial minutes are always rounded up to a full started minute, never down,
so the charge is at least the rate times the number of started minutes. -/
theorem callCost_rounds_up (d : Nat) (k : CallType) :
    calculateActualCallCost d k = ⌈(d : ℚ) / 60⌉₊ * ratePerMinute k
      ∧ d ≤ 60 * ((d + 59) / 60)
      ∧ ratePerMinute k * ⌈(d : ℚ) / 60⌉₊ ≤ calculateActualCallCost d k := by
  refine ⟨?_, by omega, ?_⟩
  · unfold calculateActualCallCost
    rw [ceil_div_sixty]
  · unfold calculateActualCallCost
    rw [ceil_div_sixty, Nat.mul_comm]

/-! ### More concrete states (the reachable results of concrete runs) -/

/-- One user wallet with 40000 paisa. -/
def aliceState : LedgerState :=
  ⟨[⟨0, some "alice", .USER_WALLET, 40000⟩], [], [], 1⟩

/-- Result of processPayment emptyState alice 10000 (first top-up). -/
def topUpState1 : LedgerState :=
  ⟨[⟨1, some "alice", .USER_WALLET, 10000⟩],
   [⟨0, none, .TOP_UP, .COMPLETED, none, "alice", 10000⟩],
   [⟨2, 0, 1, 10000, .CREDIT⟩], 3⟩

/-- Result of replaying the same top-up against topUpState1. -/
def topUpState2 : LedgerState :=
  ⟨[⟨1, some "alice", .USER_WALLET, 20000⟩],
   [⟨3, none, .TOP_UP, .COMPLETED, none, "alice", 10000⟩,
    ⟨0, none, .TOP_UP, .COMPLETED, none, "alice", 10000⟩],
   [⟨4, 3, 1, 10000, .CREDIT⟩, ⟨2, 0, 1, 10000, .CREDIT⟩], 5⟩

/-- Result of holdFundsForCall topUpState1 alice 500 call1. -/
def holdState2 : LedgerState :=
  ⟨[⟨1, some "alice", .USER_WALLET, 9500⟩],
   [⟨3, none, .HOLD_FUNDS, .HELD, some "call1", "alice", 500⟩,
    ⟨0, none, .TOP_UP, .COMPLETED, none, "alice", 10000⟩],
   [⟨2, 0, 1, 10000, .CREDIT⟩], 4⟩

/-- Result of refundHeldFunds holdState2 call1 alice 500. -/
def refundState3 : LedgerState :=
  ⟨[⟨1, some "alice", .USER_WALLET, 10000⟩],
   [⟨4, none, .REFUND, .COMPLETED, some "call1", "alice", 500⟩,
    ⟨3, none, .HOLD_FUNDS, .HELD, some "call1", "alice", 500⟩,
    ⟨0, none, .TOP_UP, .COMPLETED, none, "alice", 10000⟩],
   [⟨2, 0, 1, 10000, .CREDIT⟩], 5⟩

/-- Result of a second refundHeldFunds with the same referenceId. -/
def refundState4 : LedgerState :=
  ⟨[⟨1, some "alice", .USER_WALLET, 10500⟩],
   [⟨5, none, .REFUND, .COMPLETED, some "call1", "alice", 500⟩,
    ⟨4, none, .REFUND, .COMPLETED, some "call1", "alice", 500⟩,
    ⟨3, none, .HOLD_FUNDS, .HELD, some "call1", "alice", 500⟩,
    ⟨0, none, .TOP_UP, .COMPLETED, none, "alice", 10000⟩],
   [⟨2, 0, 1, 10000, .CREDIT⟩], 6⟩

/-- Two user wallets (the initiator broke at balance 0) and revenue. -/
def brokeState : LedgerState :=
  ⟨[⟨0, some "ivan", .USER_WALLET, 0⟩,
    ⟨1, some "bob", .USER_WALLET, 0⟩,
    ⟨2, none, .REVENUE, 0⟩], [], [], 3⟩

/-- Result of processCallPayment brokeState ivan bob 100 0 call9. -/
def brokeAfterState : LedgerState :=
  ⟨[⟨0, some "ivan", .USER_WALLET, -100⟩,
    ⟨1, some "bob", .USER_WALLET, 90⟩,
    ⟨2, none, .REVENUE, 10⟩],
   [⟨3, some ("call_" ++ "call9"), .CALL_PAYMENT, .COMPLETED, some "call9", "ivan", 100⟩],
   [⟨4, 3, 0, 100, .DEBIT⟩, ⟨5, 3, 1, 90, .CREDIT⟩, ⟨6, 3, 2, 10, .CREDIT⟩], 7⟩

/-! ### Claim C9 -/

/-- C9: every withdrawal whose amount is below the configured minimum,
above the configured maximum, or beyond the user's balance fails with the
corresponding error before any write: the returned state is exactly the
input state, so no Transaction, no Entry and no balance change is
persisted.  In the code the bound checks precede the balance check, which
precedes the first insert. -/
theorem processWithdrawal_validation (s : LedgerState) (userId : String)
    (amount minW maxW : Nat) :
    (amount < minW →
        processWithdrawal s userId amount minW maxW = (.error .belowMinimumWithdrawal, s))
    ∧ (minW ≤ amount → maxW < amount →
        processWithdrawal s userId amount minW maxW = (.error .aboveMaximumWithdrawal, s))
    ∧ (minW ≤ amount → amount ≤ maxW → getBalance s userId < (amount : Int) →
        processWithdrawal s userId amount minW maxW
          = (.error .insufficientBalanceForWithdrawal, s)) := by
  refine ⟨fun h1 => ?_, fun h1 h2 => ?_, fun h1 h2 h3 => ?_⟩
  · unfold processWithdrawal; rw [if_pos h1]
  · unfold processWithdrawal; rw [if_neg (by omega), if_pos h2]
  · unfold processWithdrawal; rw [if_neg (by omega), if_neg (by omega), if_pos h3]

/-- C9 witness: the spec scenario, withdrawing 50000 (the default minimum)
with balance 40000 under the default bounds fails with insufficient funds
and leaves the store untouched. -/
theorem processWithdrawal_validation_witness :
    processWithdrawal aliceState "alice" 50000 50000 10000000
      = (.error .insufficientBalanceForWithdrawal, aliceState) :=
  (processWithdrawal_validation aliceState "alice" 50000 50000 10000000).2.2
    (by decide) (by decide) (by decide)

/-! ### Claim C10 -/

theorem processMessagePayment_receiver_missing (s : LedgerState)
    (senderId receiverId : String) (amount : Nat)
    (hr : findAccountByUserType s receiverId .USER_WALLET = none) :
    processMessagePayment s senderId receiverId amount
      = .error .requiredAccountsNotFound := by
  unfold processMessagePayment
  cases hs : findAccountByUserType s senderId .USER_WALLET with
  | none => rfl
  | some sa => rw [hr]

theorem processCallPayment_receiver_missing (s : LedgerState)
    (initiatorId receiverId callId : String) (amount refundAmount : Nat)
    (hr : findAccountByUserType s receiverId .USER_WALLET = none) :
    processCallPayment s initiatorId receiverId amount refundAmount callId
      = .error .requiredAccountsNotFound := by
  unfold processCallPayment
  cases hs : findAccountByUserType s initiatorId .USER_WALLET with
  | none => rfl
  | some ia => rw [hr]

theorem registerInfluencer_no_user_wallet (s : LedgerState) (uid : String)
    (h : findAccountByUserType s uid .USER_WALLET = none) :
    findAccountByUserType (registerWalletAccount s uid .INFLUENCER) uid .USER_WALLET
      = none := by
  unfold findAccountByUserType registerWalletAccount at *
  rw [List.find?_cons_of_neg _ (by simp [userTypePred])]
  exact h

/-- C10: processMessagePayment and processCallPayment look the receiver up
with the filter accountType USER_WALLET, while registration gives an
influencer an INFLUENCER_WALLET account; so any monetized message or call
payment to a freshly registered influencer fails with the
required-accounts-not-found error (returning no mutated state). -/
theorem influencer_payment_fails (s : LedgerState) (senderId receiverId callId : String)
    (amount refundAmount : Nat)
    (h : findAccountByUserType s receiverId .USER_WALLET = none) :
    processMessagePayment (registerWalletAccount s receiverId .INFLUENCER)
        senderId receiverId amount = .error .requiredAccountsNotFound
    ∧ processCallPayment (registerWalletAccount s receiverId .INFLUENCER)
        senderId receiverId amount refundAmount callId
        = .error .requiredAccountsNotFound := by
  have hnone := registerInfluencer_no_user_wallet s receiverId h
  exact ⟨processMessagePayment_receiver_missing _ _ _ _ hnone,
         processCallPayment_receiver_missing _ _ _ _ _ _ hnone⟩

/-- C10 witness: registering carol as an influencer and then paying her for
a message or call fails with required-accounts-not-found. -/
theorem influencer_payment_fails_witness :
    processMessagePayment (registerWalletAccount threeAccountState "carol" .INFLUENCER)
        "alice" "carol" 10000 = .error .requiredAccountsNotFound
    ∧ processCallPayment (registerWalletAccount threeAccountState "carol" .INFLUENCER)
        "alice" "carol" 10000 0 "call1" = .error .requiredAccountsNotFound :=
  influencer_payment_fails threeAccountState "alice" "carol" "call1" 10000 0 (by decide)

/-! ### Claim C1 (counterexample) -/

/-- C1 counterexample: a successful top-up commits a COMPLETED TOP_UP
transaction whose entries consist of a single CREDIT of the full amount
and no DEBIT at all, so its credit and debit sums differ — the conservation
invariant fails for a committed transaction. -/
theorem topUp_transaction_not_balanced :
    processPayment emptyState "alice" 10000 10000 "tok-1" true = .ok topUpState1
    ∧ topUpState1.transactions
        = [⟨0, none, .TOP_UP, .COMPLETED, none, "alice", 10000⟩]
    ∧ entrySumTxn topUpState1.entries 0 .CREDIT = 10000
    ∧ entrySumTxn topUpState1.entries 0 .DEBIT = 0 :=
  ⟨rfl, rfl, by decide, by decide⟩

/-! ### Claim C3 (counterexample) -/

/-- C3 counterexample: replaying the top-up with the same payment reference
creates a second TOP_UP transaction and credits the wallet a second time
(10000 + 10000 = 20000), instead of returning the original transaction. -/
theorem topUp_replay_double_credits :
    processPayment emptyState "alice" 10000 10000 "tok-1" true = .ok topUpState1
    ∧ processPayment topUpState1 "alice" 10000 10000 "tok-1" true = .ok topUpState2
    ∧ topUpState2.transactions.length = 2
    ∧ getBalance topUpState2 "alice" = 20000 :=
  ⟨rfl, rfl, rfl, by decide⟩

/-! ### Claim C4 (counterexample) -/

/-- C4 counterexample: after a hold of 500 is refunded, a second refund
call with the same referenceId succeeds again (no conflict error) and
increments the balance once more, to 500 above the pre-hold level. -/
theorem refund_twice_both_succeed :
    refundHeldFunds holdState2 "call1" "alice" 500 = .ok refundState3
    ∧ refundHeldFunds refundState3 "call1" "alice" 500 = .ok refundState4
    ∧ getBalance holdState2 "alice" = 9500
    ∧ getBalance refundState3 "alice" = 10000
    ∧ getBalance refundState4 "alice" = 10500 :=
  ⟨rfl, rfl, by decide, by decide, by decide⟩

/-! ### Claim C5 (counterexample) -/

/-- C5 counterexample: processCallPayment never checks the initiator's
balance; with balance 0 and a charge of 100 it succeeds and leaves the
initiating account negative. -/
theorem callPayment_allows_negative_balance :
    processCallPayment brokeState "ivan" "bob" 100 0 "call9" = .ok brokeAfterState
    ∧ balanceOfId brokeState 0 = 0
    ∧ balanceOfId brokeAfterState 0 = -100
    ∧ balanceOfId brokeAfterState 0 < 0 :=
  ⟨rfl, by decide, by decide, by decide⟩

/-! ### Claim C2 (counterexample) -/

/-- C2 counterexample: after a consistent state is produced by a top-up
(balance equals net entries), holdFundsForCall decrements the balance while
creating no entry at all, so the balance-entry consistency equation fails
for the account that was debited. -/
theorem hold_breaks_balance_entry_consistency :
    processPayment emptyState "alice" 10000 10000 "tok-1" true = .ok topUpState1
    ∧ balanceOfId topUpState1 1
        = entrySumAcc topUpState1.entries 1 .CREDIT - entrySumAcc topUpState1.entries 1 .DEBIT
    ∧ holdFundsForCall topUpState1 "alice" 500 "call1" = .ok holdState2
    ∧ holdState2.entries = topUpState1.entries
    ∧ balanceOfId holdState2 1
        ≠ entrySumAcc holdState2.entries 1 .CREDIT - entrySumAcc holdState2.entries 1 .DEBIT :=
  ⟨rfl, by decide, rfl, rfl, by decide⟩

/-! ### Claim C5 (amended) -/

/-- C5 amended: processMessagePayment, holdFundsForCall and
processWithdrawal all reject with an insufficient-funds error, before any
mutation, when the initiating balance cannot cover the amount; but
processCallPayment performs no balance check at all — whenever the three
accounts exist it succeeds for any amount, which is how the initiator's
balance can be left negative. -/
theorem solvency_guards :
    (∀ (s : LedgerState) (senderId receiverId : String) (amount : Nat) (sa ra va : Account),
        findAccountByUserType s senderId .USER_WALLET = some sa →
        findAccountByUserType s receiverId .USER_WALLET = some ra →
        findRevenueAccount s = some va →
        sa.balance < (amount : Int) →
        processMessagePayment s senderId receiverId amount = .error .insufficientBalance)
    ∧ (∀ (s : LedgerState) (userId callId : String) (amount : Nat) (ua : Account),
        findAccountByUser s userId = some ua →
        ua.balance < (amount : Int) →
        holdFundsForCall s userId amount callId = .error .insufficientBalanceForCall)
    ∧ (∀ (s : LedgerState) (userId : String) (amount minW maxW : Nat),
        minW ≤ amount → amount ≤ maxW → getBalance s userId < (amount : Int) →
        processWithdrawal s userId amount minW maxW
          = (.error .insufficientBalanceForWithdrawal, s))
    ∧ (∀ (s : LedgerState) (initiatorId receiverId callId : String)
          (amount refundAmount : Nat) (ia ra va : Account),
        findAccountByUserType s initiatorId .USER_WALLET = some ia →
        findAccountByUserType s receiverId .USER_WALLET = some ra →
        findRevenueAccount s = some va →
        ∃ s2, processCallPayment s initiatorId receiverId amount refundAmount callId
          = .ok s2) := by
  refine ⟨?_, ?_, ?_, ?_⟩
  · intro s senderId receiverId amount sa ra va hs hr hv hlt
    simp only [processMessagePayment, hs, hr, hv]
    rw [if_pos hlt]
  · intro s userId callId amount ua hu hlt
    simp only [holdFundsForCall, hu]
    rw [if_pos hlt]
  · intro s userId amount minW maxW h1 h2 h3
    unfold processWithdrawal
    rw [if_neg (by omega), if_neg (by omega), if_pos h3]
  · intro s initiatorId receiverId callId amount refundAmount ia ra va hi hr hv
    simp only [processCallPayment, hi, hr, hv]
    by_cases h : 0 < refundAmount
    · rw [if_pos h]; exact ⟨_, rfl⟩
    · rw [if_neg h]; exact ⟨_, rfl⟩

/-- C5 witness: a hold for 100 against a zero balance fails with the
insufficient-balance error. -/
theorem solvency_guards_witness :
    holdFundsForCall brokeState "ivan" 100 "call1" = .error .insufficientBalanceForCall :=
  solvency_guards.2.1 brokeState "ivan" "call1" 100
    ⟨0, some "ivan", .USER_WALLET, 0⟩ (by decide) (by decide)

/-! ### Claim C6 -/

/-- C6: when the sender, receiver and revenue accounts exist (as distinct
rows) and the sender can cover the gross amount G, processMessagePayment
commits exactly one COMPLETED CHAT_PAYMENT transaction together with
exactly three new entries — DEBIT sender G, CREDIT receiver floor(G times
0.9), CREDIT revenue the remainder — and in the same atomic unit moves the
three balances by exactly those amounts. -/
theorem processMessagePayment_spec (s : LedgerState) (senderId receiverId : String)
    (amount : Nat) (sa ra va : Account)
    (hs : findAccountByUserType s senderId .USER_WALLET = some sa)
    (hr : findAccountByUserType s receiverId .USER_WALLET = some ra)
    (hv : findRevenueAccount s = some va)
    (hbal : (amount : Int) ≤ sa.balance)
    (hsr : sa.id ≠ ra.id) (hsv : sa.id ≠ va.id) (hrv : ra.id ≠ va.id) :
    ∃ s2,
      processMessagePayment s senderId receiverId amount = .ok s2
      ∧ s2.transactions
          = { id := s.nextId, idempotencyKey := some ("msg_" ++ toString s.nextId),
              type := .CHAT_PAYMENT, status := .COMPLETED, referenceId := none,
              userId := senderId, amount := amount } :: s.transactions
      ∧ s2.entries
          = ⟨s.nextId + 1, s.nextId, sa.id, amount, .DEBIT⟩
            :: ⟨s.nextId + 2, s.nextId, ra.id, receiverShareOf amount, .CREDIT⟩
            :: ⟨s.nextId + 3, s.nextId, va.id, revenueShareOf amount, .CREDIT⟩
            :: s.entries
      ∧ balanceOfId s2 sa.id = balanceOfId s sa.id - amount
      ∧ balanceOfId s2 ra.id = balanceOfId s ra.id + receiverShareOf amount
      ∧ balanceOfId s2 va.id = balanceOfId s va.id + revenueShareOf amount := by
  have hs' : s.accounts.find? (userTypePred senderId .USER_WALLET) = some sa := hs
  have hr' : s.accounts.find? (userTypePred receiverId .USER_WALLET) = some ra := hr
  have hv' : s.accounts.find? (typePred .REVENUE) = some va := hv
  have hsome_sa := find?_idPred_isSome_of_mem (List.mem_of_find?_eq_some hs')
  have hsome_ra := find?_idPred_isSome_of_mem (List.mem_of_find?_eq_some hr')
  have hsome_va := find?_idPred_isSome_of_mem (List.mem_of_find?_eq_some hv')
  have hok : processMessagePayment s senderId receiverId amount
      = .ok { accounts :=
                updateBalance (updateBalance (updateBalance s.accounts
                  sa.id (-(amount : Int))) ra.id (receiverShareOf amount : Int))
                  va.id (revenueShareOf amount : Int),
              transactions :=
                { id := s.nextId, idempotencyKey := some ("msg_" ++ toString s.nextId),
                  type := .CHAT_PAYMENT, status := .COMPLETED, referenceId := none,
                  userId := senderId, amount := amount } :: s.transactions,
              entries :=
                ⟨s.nextId + 1, s.nextId, sa.id, amount, .DEBIT⟩
                :: ⟨s.nextId + 2, s.nextId, ra.id, receiverShareOf amount, .CREDIT⟩
                :: ⟨s.nextId + 3, s.nextId, va.id, revenueShareOf amount, .CREDIT⟩
                :: s.entries,
              nextId := s.nextId + 4 } := by
    simp only [processMessagePayment, hs, hr, hv]
    rw [if_neg (not_lt.mpr hbal)]
  refine ⟨_, hok, rfl, rfl, ?_, ?_, ?_⟩
  · simp only [balanceOfId]
    rw [balanceInList_updateBalance_ne _ va.id sa.id _ hsv,
      balanceInList_updateBalance_ne _ ra.id sa.id _ hsr,
      balanceInList_updateBalance_self s.accounts sa.id _ hsome_sa]
    omega
  · simp only [balanceOfId]
    have hsome1 : ((updateBalance s.accounts sa.id (-(amount : Int))).find?
        (idPred ra.id)).isSome := by
      rw [isSome_find?_updateBalance]; exact hsome_ra
    rw [balanceInList_updateBalance_ne _ va.id ra.id _ hrv,
      balanceInList_updateBalance_self _ ra.id _ hsome1,
      balanceInList_updateBalance_ne _ sa.id ra.id _ (Ne.symm hsr)]
  · simp only [balanceOfId]
    have hsome2 : ((updateBalance (updateBalance s.accounts sa.id (-(amount : Int)))
        ra.id (receiverShareOf amount : Int)).find? (idPred va.id)).isSome := by
      rw [isSome_find?_updateBalance, isSome_find?_updateBalance]; exact hsome_va
    rw [balanceInList_updateBalance_self _ va.id _ hsome2,
      balanceInList_updateBalance_ne _ ra.id va.id _ (Ne.symm hrv),
      balanceInList_updateBalance_ne _ sa.id va.id _ (Ne.symm hsv)]

/-- C6 witness: the spec scenario — alice (balance 10000) pays 100 for a
message to bob: alice ends at 9900, bob gains 90, revenue gains 10. -/
theorem processMessagePayment_spec_witness :
    ∃ s2, processMessagePayment threeAccountState "alice" "bob" 100 = .ok s2
      ∧ balanceOfId s2 0 = 9900 ∧ balanceOfId s2 1 = 90 ∧ balanceOfId s2 2 = 10 := by
  obtain ⟨s2, hok, -, -, h1, h2, h3⟩ :=
    processMessagePayment_spec threeAccountState "alice" "bob" 100
      ⟨0, some "alice", AccountType.USER_WALLET, 10000⟩
      ⟨1, some "bob", AccountType.USER_WALLET, 0⟩
      ⟨2, none, AccountType.REVENUE, 0⟩
      (by decide) (by decide) (by decide) (by decide) (by decide) (by decide) (by decide)
  refine ⟨s2, hok, ?_, ?_, ?_⟩
  · rw [h1]; decide
  · rw [h2]; decide
  · rw [h3]; decide

/-! ### Success-shape lemmas for the single-update operations -/

theorem updAcc_balance_self (aid : Nat) (delta : Int) (a : Account) (h : a.id = aid) :
    (updAcc aid delta a).balance = a.balance + delta := by
  unfold updAcc; rw [if_pos h]

theorem refundHeldFunds_ok (s : LedgerState) (callId userId : String) (amount : Nat)
    (ua : Account) (hu : findAccountByUser s userId = some ua) :
    refundHeldFunds s callId userId amount
      = .ok { accounts := updateBalance s.accounts ua.id (amount : Int),
              transactions :=
                ⟨s.nextId, none, .REFUND, .COMPLETED, some callId, userId, amount⟩
                :: s.transactions,
              entries := s.entries,
              nextId := s.nextId + 1 } := by
  simp only [refundHeldFunds, hu]

theorem settleCallCharges_ok (s : LedgerState) (callId callerId receiverId : String)
    (d : Nat) (k : CallType) (ra : Account)
    (hu : findAccountByUser s receiverId = some ra) :
    settleCallCharges s callId d k callerId receiverId
      = .ok { accounts := updateBalance s.accounts ra.id (calculateActualCallCost d k : Int),
              transactions :=
                ⟨s.nextId, none, .CALL_PAYMENT, .COMPLETED, some callId, callerId,
                  calculateActualCallCost d k⟩
                :: s.transactions,
              entries := s.entries,
              nextId := s.nextId + 1 } := by
  simp only [settleCallCharges, hu]
  rfl

theorem holdFundsForCall_ok (s : LedgerState) (userId callId : String) (amount : Nat)
    (ua : Account) (hu : findAccountByUser s userId = some ua)
    (hbal : ¬ ua.balance < (amount : Int)) :
    holdFundsForCall s userId amount callId
      = .ok { accounts := updateBalance s.accounts ua.id (-(amount : Int)),
              transactions :=
                ⟨s.nextId, none, .HOLD_FUNDS, .HELD, some callId, userId, amount⟩
                :: s.transactions,
              entries := s.entries,
              nextId := s.nextId + 1 } := by
  simp only [holdFundsForCall, hu]
  rw [if_neg hbal]

/-- After a balance update, the user lookup finds the updated row. -/
theorem findAccountByUser_after_update (s : LedgerState) (uid : String) (aid : Nat)
    (delta : Int) (ua : Account) (hu : findAccountByUser s uid = some ua)
    (trs : List Transaction) (ens : List Entry) (n : Nat) :
    findAccountByUser
      { accounts := updateBalance s.accounts aid delta,
        transactions := trs, entries := ens, nextId := n } uid
      = some (updAcc aid delta ua) := by
  unfold findAccountByUser
  show (updateBalance s.accounts aid delta).find? (userPred uid) = _
  rw [find?_updateBalance _ _ _ _ (userPred_updAcc uid aid delta),
    show s.accounts.find? (userPred uid) = some ua from hu, Option.map_some']

/-! ### Claim C4 (amended) -/

/-- C4 amended: neither refundHeldFunds nor settleCallCharges looks up a
HELD transaction or checks that the hold is unresolved; whenever a call
succeeds, an immediate second call with the same referenceId succeeds as
well (no HoldNotFound or HoldAlreadyResolved conflict exists in the code),
appends another transaction, and moves the balance by the same amount a
second time. -/
theorem hold_resolution_not_guarded :
    (∀ (s s1 : LedgerState) (callId userId : String) (amount : Nat),
        refundHeldFunds s callId userId amount = .ok s1 →
        ∃ s2, refundHeldFunds s1 callId userId amount = .ok s2
          ∧ getBalance s2 userId = getBalance s userId + 2 * amount
          ∧ s2.transactions.length = s.transactions.length + 2)
    ∧ (∀ (s s1 : LedgerState) (callId callerId receiverId : String) (d : Nat) (k : CallType),
        settleCallCharges s callId d k callerId receiverId = .ok s1 →
        ∃ s2, settleCallCharges s1 callId d k callerId receiverId = .ok s2
          ∧ getBalance s2 receiverId
              = getBalance s receiverId + 2 * calculateActualCallCost d k
          ∧ s2.transactions.length = s.transactions.length + 2) := by
  constructor
  · intro s s1 callId userId amount h1
    cases hu : findAccountByUser s userId with
    | none => simp [refundHeldFunds, hu] at h1
    | some ua =>
      rw [refundHeldFunds_ok s callId userId amount ua hu] at h1
      injection h1 with h1
      subst h1
      have hu2 := findAccountByUser_after_update s userId ua.id ((amount : Nat) : Int) ua hu
        (⟨s.nextId, none, .REFUND, .COMPLETED, some callId, userId, amount⟩ :: s.transactions)
        s.entries (s.nextId + 1)
      refine ⟨_, refundHeldFunds_ok _ callId userId amount _ hu2, ?_, ?_⟩
      · simp only [getBalance]
        rw [findAccountByUser_after_update _ userId _ _ _ hu2 _ _ _, hu]
        dsimp only
        rw [updAcc_balance_self _ _ _ rfl, updAcc_balance_self _ _ _ rfl]
        omega
      · simp [List.length_cons]
  · intro s s1 callId callerId receiverId d k h1
    cases hu : findAccountByUser s receiverId with
    | none => simp [settleCallCharges, hu] at h1
    | some ra =>
      rw [settleCallCharges_ok s callId callerId receiverId d k ra hu] at h1
      injection h1 with h1
      subst h1
      have hu2 := findAccountByUser_after_update s receiverId ra.id
        ((calculateActualCallCost d k : Nat) : Int) ra hu
        (⟨s.nextId, none, .CALL_PAYMENT, .COMPLETED, some callId, callerId,
          calculateActualCallCost d k⟩ :: s.transactions)
        s.entries (s.nextId + 1)
      refine ⟨_, settleCallCharges_ok _ callId callerId receiverId d k _ hu2, ?_, ?_⟩
      · simp only [getBalance]
        rw [findAccountByUser_after_update _ receiverId _ _ _ hu2 _ _ _, hu]
        dsimp only
        rw [updAcc_balance_self _ _ _ rfl, updAcc_balance_self _ _ _ rfl]
        omega
      · simp [List.length_cons]

/-- C4 amended witness: the concrete refund replay from the counterexample
run, obtained through the general theorem. -/
theorem hold_resolution_not_guarded_witness :
    ∃ s2, refundHeldFunds refundState3 "call1" "alice" 500 = .ok s2
      ∧ getBalance s2 "alice" = getBalance holdState2 "alice" + 2 * 500
      ∧ s2.transactions.length = holdState2.transactions.length + 2 :=
  hold_resolution_not_guarded.1 holdState2 refundState3 "call1" "alice" 500 rfl

/-! ### Success-shape lemmas for the top-up -/

theorem findAccountByUserType_after_update (s : LedgerState) (uid : String)
    (t : AccountType) (aid : Nat) (delta : Int) (ua : Account)
    (hu : findAccountByUserType s uid t = some ua)
    (trs : List Transaction) (ens : List Entry) (n : Nat) :
    findAccountByUserType
      { accounts := updateBalance s.accounts aid delta,
        transactions := trs, entries := ens, nextId := n } uid t
      = some (updAcc aid delta ua) := by
  unfold findAccountByUserType
  show (updateBalance s.accounts aid delta).find? (userTypePred uid t) = _
  rw [find?_updateBalance _ _ _ _ (userTypePred_updAcc uid t aid delta),
    show s.accounts.find? (userTypePred uid t) = some ua from hu, Option.map_some']

theorem processPayment_ok_existing (s : LedgerState) (uid ref : String)
    (amount minA : Nat) (ua : Account) (hmin : ¬ amount < minA)
    (hfind : findAccountByUserType s uid .USER_WALLET = some ua) :
    processPayment s uid amount minA ref true
      = .ok { accounts := updateBalance s.accounts ua.id (amount : Int),
              transactions :=
                ⟨s.nextId, none, .TOP_UP, .COMPLETED, none, uid, amount⟩ :: s.transactions,
              entries := ⟨s.nextId + 1, s.nextId, ua.id, amount, .CREDIT⟩ :: s.entries,
              nextId := s.nextId + 2 } := by
  unfold processPayment
  rw [if_neg hmin, if_neg (by simp)]
  simp only [addMoneyToWallet]
  rw [show findAccountByUserType
      { s with
        transactions := ⟨s.nextId, none, .TOP_UP, .COMPLETED, none, uid, amount⟩ :: s.transactions,
        nextId := s.nextId + 1 } uid .USER_WALLET = some ua from hfind]

theorem processPayment_ok_fresh (s : LedgerState) (uid ref : String)
    (amount minA : Nat) (hmin : ¬ amount < minA)
    (hfind : findAccountByUserType s uid .USER_WALLET = none) :
    processPayment s uid amount minA ref true
      = .ok { accounts :=
                updateBalance (⟨s.nextId + 1, some uid, .USER_WALLET, 0⟩ :: s.accounts)
                  (s.nextId + 1) (amount : Int),
              transactions :=
                ⟨s.nextId, none, .TOP_UP, .COMPLETED, none, uid, amount⟩ :: s.transactions,
              entries := ⟨s.nextId + 2, s.nextId, s.nextId + 1, amount, .CREDIT⟩ :: s.entries,
              nextId := s.nextId + 3 } := by
  unfold processPayment
  rw [if_neg hmin, if_neg (by simp)]
  simp only [addMoneyToWallet]
  rw [show findAccountByUserType
      { s with
        transactions := ⟨s.nextId, none, .TOP_UP, .COMPLETED, none, uid, amount⟩ :: s.transactions,
        nextId := s.nextId + 1 } uid .USER_WALLET = none from hfind]

/-- One successful top-up appends exactly one transaction and raises the
USER_WALLET balance by exactly the amount, whether or not the wallet
account already existed. -/
theorem processPayment_effect (s : LedgerState) (uid ref : String)
    (amount minA : Nat) (hmin : ¬ amount < minA) :
    ∃ s1, processPayment s uid amount minA ref true = .ok s1
      ∧ s1.transactions.length = s.transactions.length + 1
      ∧ userWalletBalance s1 uid = userWalletBalance s uid + amount := by
  cases hfind : findAccountByUserType s uid .USER_WALLET with
  | some ua =>
    rw [processPayment_ok_existing s uid ref amount minA ua hmin hfind]
    refine ⟨_, rfl, by simp, ?_⟩
    simp only [userWalletBalance]
    rw [findAccountByUserType_after_update s uid .USER_WALLET ua.id _ ua hfind _ _ _, hfind]
    dsimp only
    rw [updAcc_balance_self _ _ _ rfl]
  | none =>
    rw [processPayment_ok_fresh s uid ref amount minA hmin hfind]
    refine ⟨_, rfl, by simp, ?_⟩
    simp only [userWalletBalance]
    rw [hfind]
    show (match ((updateBalance (⟨s.nextId + 1, some uid, .USER_WALLET, 0⟩ :: s.accounts)
        (s.nextId + 1) (amount : Int)).find? (userTypePred uid .USER_WALLET)) with
      | some a => a.balance
      | none => 0) = 0 + (amount : Int)
    rw [find?_updateBalance _ _ _ _ (userTypePred_updAcc uid .USER_WALLET (s.nextId + 1) _),
      List.find?_cons_of_pos _ (by simp [userTypePred]), Option.map_some']
    dsimp only
    rw [updAcc_balance_self (s.nextId + 1) ((amount : Nat) : Int)
      ⟨s.nextId + 1, some uid, .USER_WALLET, 0⟩ rfl]

/-! ### Claim C3 (amended) -/

/-- C3 amended: the top-up path is not idempotent — it stores no
idempotency key and never checks the payment reference, so a replayed call
with the same reference succeeds again, creating a second Transaction and
incrementing the wallet balance a second time (two calls net two
transactions and twice the amount). -/
theorem topUp_not_idempotent (s s1 : LedgerState) (userId ref : String)
    (amount minA : Nat)
    (h1 : processPayment s userId amount minA ref true = .ok s1) :
    ∃ s2, processPayment s1 userId amount minA ref true = .ok s2
      ∧ s2.transactions.length = s.transactions.length + 2
      ∧ userWalletBalance s2 userId = userWalletBalance s userId + 2 * amount := by
  have hmin : ¬ amount < minA := by
    intro hmin
    unfold processPayment at h1
    rw [if_pos hmin] at h1
    exact absurd h1 (by simp)
  obtain ⟨s1', hok1, hlen1, hbal1⟩ := processPayment_effect s userId ref amount minA hmin
  rw [h1] at hok1
  injection hok1 with hok1
  subst hok1
  obtain ⟨s2, hok2, hlen2, hbal2⟩ := processPayment_effect s1 userId ref amount minA hmin
  exact ⟨s2, hok2, by omega, by omega⟩

/-- C3 amended witness: replaying the concrete top-up of the counterexample
run through the general theorem. -/
theorem topUp_not_idempotent_witness :
    ∃ s2, processPayment topUpState1 "alice" 10000 10000 "tok-1" true = .ok s2
      ∧ s2.transactions.length = emptyState.transactions.length + 2
      ∧ userWalletBalance s2 "alice" = userWalletBalance emptyState "alice" + 2 * 10000 :=
  topUp_not_idempotent emptyState topUpState1 "alice" "tok-1" 10000 10000 rfl

/-! ### Success-shape lemmas for the entry-creating operations -/

theorem processMessagePayment_ok (s : LedgerState) (senderId receiverId : String)
    (amount : Nat) (sa ra va : Account)
    (hs : findAccountByUserType s senderId .USER_WALLET = some sa)
    (hr : findAccountByUserType s receiverId .USER_WALLET = some ra)
    (hv : findRevenueAccount s = some va)
    (hbal : ¬ sa.balance < (amount : Int)) :
    processMessagePayment s senderId receiverId amount
      = .ok { accounts :=
                updateBalance (updateBalance (updateBalance s.accounts
                  sa.id (-(amount : Int))) ra.id (receiverShareOf amount : Int))
                  va.id (revenueShareOf amount : Int),
              transactions :=
                { id := s.nextId, idempotencyKey := some ("msg_" ++ toString s.nextId),
                  type := .CHAT_PAYMENT, status := .COMPLETED, referenceId := none,
                  userId := senderId, amount := amount } :: s.transactions,
              entries :=
                ⟨s.nextId + 1, s.nextId, sa.id, amount, .DEBIT⟩
                :: ⟨s.nextId + 2, s.nextId, ra.id, receiverShareOf amount, .CREDIT⟩
                :: ⟨s.nextId + 3, s.nextId, va.id, revenueShareOf amount, .CREDIT⟩
                :: s.entries,
              nextId := s.nextId + 4 } := by
  simp only [processMessagePayment, hs, hr, hv]
  rw [if_neg hbal]

theorem processCallPayment_ok_refund (s : LedgerState) (initiatorId receiverId callId : String)
    (amount refundAmount : Nat) (ia ra va : Account)
    (hi : findAccountByUserType s initiatorId .USER_WALLET = some ia)
    (hr : findAccountByUserType s receiverId .USER_WALLET = some ra)
    (hv : findRevenueAccount s = some va)
    (hpos : 0 < refundAmount) :
    processCallPayment s initiatorId receiverId amount refundAmount callId
      = .ok { accounts :=
                updateBalance
                  (updateBalance (updateBalance (updateBalance s.accounts
                    ia.id (-(amount : Int))) ra.id (receiverShareOf amount : Int))
                    va.id (revenueShareOf amount : Int))
                  ia.id (refundAmount : Int),
              transactions :=
                ⟨s.nextId + 4, some ("call_" ++ callId ++ "_refund"), .REFUND, .COMPLETED,
                  some callId, initiatorId, refundAmount⟩
                :: ⟨s.nextId, some ("call_" ++ callId), .CALL_PAYMENT, .COMPLETED,
                  some callId, initiatorId, amount⟩
                :: s.transactions,
              entries :=
                ⟨s.nextId + 5, s.nextId + 4, ia.id, refundAmount, .CREDIT⟩
                :: ⟨s.nextId + 1, s.nextId, ia.id, amount, .DEBIT⟩
                :: ⟨s.nextId + 2, s.nextId, ra.id, receiverShareOf amount, .CREDIT⟩
                :: ⟨s.nextId + 3, s.nextId, va.id, revenueShareOf amount, .CREDIT⟩
                :: s.entries,
              nextId := s.nextId + 6 } := by
  simp only [processCallPayment, hi, hr, hv]
  rw [if_pos hpos]

theorem processCallPayment_ok_norefund (s : LedgerState)
    (initiatorId receiverId callId : String)
    (amount refundAmount : Nat) (ia ra va : Account)
    (hi : findAccountByUserType s initiatorId .USER_WALLET = some ia)
    (hr : findAccountByUserType s receiverId .USER_WALLET = some ra)
    (hv : findRevenueAccount s = some va)
    (hneg : ¬ 0 < refundAmount) :
    processCallPayment s initiatorId receiverId amount refundAmount callId
      = .ok { accounts :=
                updateBalance (updateBalance (updateBalance s.accounts
                  ia.id (-(amount : Int))) ra.id (receiverShareOf amount : Int))
                  va.id (revenueShareOf amount : Int),
              transactions :=
                ⟨s.nextId, some ("call_" ++ callId), .CALL_PAYMENT, .COMPLETED,
                  some callId, initiatorId, amount⟩
                :: s.transactions,
              entries :=
                ⟨s.nextId + 1, s.nextId, ia.id, amount, .DEBIT⟩
                :: ⟨s.nextId + 2, s.nextId, ra.id, receiverShareOf amount, .CREDIT⟩
                :: ⟨s.nextId + 3, s.nextId, va.id, revenueShareOf amount, .CREDIT⟩
                :: s.entries,
              nextId := s.nextId + 4 } := by
  simp only [processCallPayment, hi, hr, hv]
  rw [if_neg hneg]

theorem processWithdrawal_ok (s : LedgerState) (uid : String)
    (amount minW maxW : Nat) (ua : Account)
    (h1 : ¬ amount < minW) (h2 : ¬ maxW < amount)
    (h3 : ¬ getBalance s uid < (amount : Int))
    (hfind : findAccountByUserType s uid .USER_WALLET = some ua) :
    processWithdrawal s uid amount minW maxW
      = (.ok (), markCompleted
          { accounts := updateBalance s.accounts ua.id (-(amount : Int)),
            transactions :=
              ⟨s.nextId, none, .WITHDRAWAL, .PENDING, none, uid, amount⟩ :: s.transactions,
            entries := ⟨s.nextId + 1, s.nextId, ua.id, amount, .DEBIT⟩ :: s.entries,
            nextId := s.nextId + 2 } s.nextId) := by
  unfold processWithdrawal
  rw [if_neg h1, if_neg h2, if_neg h3]
  simp only [deductMoneyFromWallet]
  rw [show findAccountByUserType
      { s with
        transactions := ⟨s.nextId, none, .WITHDRAWAL, .PENDING, none, uid, amount⟩ :: s.transactions,
        nextId := s.nextId + 1 } uid .USER_WALLET = some ua from hfind]

/-! ### Claim C1 (amended) -/

/-- C1 amended: the conservation invariant holds only for the chat-payment
transaction (and the main call-payment transaction, which has the same
three-entry shape): its credit sum and debit sum both equal the gross
amount.  It fails for the boundary operations: a committed top-up carries a
single CREDIT entry and no DEBIT, a committed withdrawal a single DEBIT and
no CREDIT, and the call-refund transaction a single CREDIT and no DEBIT, so
those entry sets do not net to zero. -/
theorem entry_conservation_per_operation :
    (∀ (s s2 : LedgerState) (senderId receiverId : String) (amount : Nat),
        processMessagePayment s senderId receiverId amount = .ok s2 →
        (∀ e ∈ s.entries, e.transactionId ≠ s.nextId) →
        entrySumTxn s2.entries s.nextId .CREDIT = amount
          ∧ entrySumTxn s2.entries s.nextId .DEBIT = amount)
    ∧ (∀ (s s2 : LedgerState) (uid ref : String) (amount minA : Nat),
        processPayment s uid amount minA ref true = .ok s2 →
        (∀ e ∈ s.entries, e.transactionId ≠ s.nextId) →
        entrySumTxn s2.entries s.nextId .CREDIT = amount
          ∧ entrySumTxn s2.entries s.nextId .DEBIT = 0)
    ∧ (∀ (s s2 : LedgerState) (uid : String) (amount minW maxW : Nat) (res : Unit),
        processWithdrawal s uid amount minW maxW = (.ok res, s2) →
        (∀ e ∈ s.entries, e.transactionId ≠ s.nextId) →
        entrySumTxn s2.entries s.nextId .CREDIT = 0
          ∧ entrySumTxn s2.entries s.nextId .DEBIT = amount)
    ∧ (∀ (s s2 : LedgerState) (initiatorId receiverId callId : String)
          (amount refundAmount : Nat),
        processCallPayment s initiatorId receiverId amount refundAmount callId = .ok s2 →
        0 < refundAmount →
        (∀ e ∈ s.entries, e.transactionId ≠ s.nextId + 4) →
        entrySumTxn s2.entries (s.nextId + 4) .CREDIT = refundAmount
          ∧ entrySumTxn s2.entries (s.nextId + 4) .DEBIT = 0)
    ∧ (∀ (s s2 : LedgerState) (initiatorId receiverId callId : String)
          (amount refundAmount : Nat),
        processCallPayment s initiatorId receiverId amount refundAmount callId = .ok s2 →
        (∀ e ∈ s.entries, e.transactionId ≠ s.nextId) →
        entrySumTxn s2.entries s.nextId .CREDIT = amount
          ∧ entrySumTxn s2.entries s.nextId .DEBIT = amount) := by
  refine ⟨?_, ?_, ?_, ?_, ?_⟩
  · intro s s2 senderId receiverId amount h hfresh
    cases hs : findAccountByUserType s senderId .USER_WALLET with
    | none => simp [processMessagePayment, hs] at h
    | some sa =>
    cases hr : findAccountByUserType s receiverId .USER_WALLET with
    | none => simp [processMessagePayment, hs, hr] at h
    | some ra =>
    cases hv : findRevenueAccount s with
    | none => simp [processMessagePayment, hs, hr, hv] at h
    | some va =>
    by_cases hbal : sa.balance < (amount : Int)
    · simp only [processMessagePayment, hs, hr, hv] at h
      rw [if_pos hbal] at h
      exact absurd h (by simp)
    · rw [processMessagePayment_ok s senderId receiverId amount sa ra va hs hr hv hbal] at h
      injection h with h
      subst h
      constructor
      · show entrySumTxn (_ :: _ :: _ :: s.entries) s.nextId .CREDIT = amount
        rw [entrySumTxn_cons, entrySumTxn_cons, entrySumTxn_cons,
          entrySumTxn_eq_zero _ _ _ hfresh]
        dsimp only
        rw [if_neg (fun hc => absurd hc.2 (by decide)), if_pos ⟨rfl, rfl⟩, if_pos ⟨rfl, rfl⟩]
        unfold revenueShareOf receiverShareOf
        omega
      · show entrySumTxn (_ :: _ :: _ :: s.entries) s.nextId .DEBIT = amount
        rw [entrySumTxn_cons, entrySumTxn_cons, entrySumTxn_cons,
          entrySumTxn_eq_zero _ _ _ hfresh]
        dsimp only
        rw [if_pos ⟨rfl, rfl⟩, if_neg (fun hc => absurd hc.2 (by decide)),
          if_neg (fun hc => absurd hc.2 (by decide))]
        omega
  · intro s s2 uid ref amount minA h hfresh
    have hmin : ¬ amount < minA := by
      intro hmin
      unfold processPayment at h
      rw [if_pos hmin] at h
      exact absurd h (by simp)
    cases hfind : findAccountByUserType s uid .USER_WALLET with
    | some ua =>
      rw [processPayment_ok_existing s uid ref amount minA ua hmin hfind] at h
      injection h with h
      subst h
      constructor
      · show entrySumTxn (_ :: s.entries) s.nextId .CREDIT = amount
        rw [entrySumTxn_cons, entrySumTxn_eq_zero _ _ _ hfresh]
        dsimp only
        rw [if_pos ⟨rfl, rfl⟩]
        omega
      · show entrySumTxn (_ :: s.entries) s.nextId .DEBIT = 0
        rw [entrySumTxn_cons, entrySumTxn_eq_zero _ _ _ hfresh]
        dsimp only
        rw [if_neg (fun hc => absurd hc.2 (by decide))]
    | none =>
      rw [processPayment_ok_fresh s uid ref amount minA hmin hfind] at h
      injection h with h
      subst h
      constructor
      · show entrySumTxn (_ :: s.entries) s.nextId .CREDIT = amount
        rw [entrySumTxn_cons, entrySumTxn_eq_zero _ _ _ hfresh]
        dsimp only
        rw [if_pos ⟨rfl, rfl⟩]
        omega
      · show entrySumTxn (_ :: s.entries) s.nextId .DEBIT = 0
        rw [entrySumTxn_cons, entrySumTxn_eq_zero _ _ _ hfresh]
        dsimp only
        rw [if_neg (fun hc => absurd hc.2 (by decide))]
  · intro s s2 uid amount minW maxW res h hfresh
    by_cases h1 : amount < minW
    · exfalso
      unfold processWithdrawal at h
      rw [if_pos h1] at h
      simp at h
    by_cases h2 : maxW < amount
    · exfalso
      unfold processWithdrawal at h
      rw [if_neg h1, if_pos h2] at h
      simp at h
    by_cases h3 : getBalance s uid < (amount : Int)
    · exfalso
      unfold processWithdrawal at h
      rw [if_neg h1, if_neg h2, if_pos h3] at h
      simp at h
    cases hfind : findAccountByUserType s uid .USER_WALLET with
    | none =>
      exfalso
      unfold processWithdrawal at h
      rw [if_neg h1, if_neg h2, if_neg h3] at h
      simp only [deductMoneyFromWallet] at h
      rw [show findAccountByUserType
          { s with
            transactions := ⟨s.nextId, none, .WITHDRAWAL, .PENDING, none, uid, amount⟩ :: s.transactions,
            nextId := s.nextId + 1 } uid .USER_WALLET = none from hfind] at h
      simp at h
    | some ua =>
      rw [processWithdrawal_ok s uid amount minW maxW ua h1 h2 h3 hfind] at h
      rw [Prod.mk.injEq] at h
      obtain ⟨-, hs2⟩ := h
      subst hs2
      constructor
      · show entrySumTxn (⟨s.nextId + 1, s.nextId, ua.id, amount, .DEBIT⟩ :: s.entries)
          s.nextId .CREDIT = 0
        rw [entrySumTxn_cons, entrySumTxn_eq_zero _ _ _ hfresh]
        dsimp only
        rw [if_neg (fun hc => absurd hc.2 (by decide))]
      · show entrySumTxn (⟨s.nextId + 1, s.nextId, ua.id, amount, .DEBIT⟩ :: s.entries)
          s.nextId .DEBIT = amount
        rw [entrySumTxn_cons, entrySumTxn_eq_zero _ _ _ hfresh]
        dsimp only
        rw [if_pos ⟨rfl, rfl⟩]
        omega
  · intro s s2 initiatorId receiverId callId amount refundAmount h hpos hfresh
    cases hi : findAccountByUserType s initiatorId .USER_WALLET with
    | none => simp [processCallPayment, hi] at h
    | some ia =>
    cases hr : findAccountByUserType s receiverId .USER_WALLET with
    | none => simp [processCallPayment, hi, hr] at h
    | some ra =>
    cases hv : findRevenueAccount s with
    | none => simp [processCallPayment, hi, hr, hv] at h
    | some va =>
    rw [processCallPayment_ok_refund s initiatorId receiverId callId amount refundAmount
      ia ra va hi hr hv hpos] at h
    injection h with h
    subst h
    constructor
    · show entrySumTxn (_ :: _ :: _ :: _ :: s.entries) (s.nextId + 4) .CREDIT = refundAmount
      rw [entrySumTxn_cons, entrySumTxn_cons, entrySumTxn_cons, entrySumTxn_cons,
        entrySumTxn_eq_zero _ _ _ hfresh]
      dsimp only
      rw [if_pos ⟨rfl, rfl⟩,
        if_neg (by rintro ⟨hc, -⟩; omega),
        if_neg (by rintro ⟨hc, -⟩; omega),
        if_neg (by rintro ⟨hc, -⟩; omega)]
      omega
    · show entrySumTxn (_ :: _ :: _ :: _ :: s.entries) (s.nextId + 4) .DEBIT = 0
      rw [entrySumTxn_cons, entrySumTxn_cons, entrySumTxn_cons, entrySumTxn_cons,
        entrySumTxn_eq_zero _ _ _ hfresh]
      dsimp only
      rw [if_neg (fun hc => absurd hc.2 (by decide)),
        if_neg (by rintro ⟨hc, -⟩; omega),
        if_neg (by rintro ⟨hc, -⟩; omega),
        if_neg (by rintro ⟨hc, -⟩; omega)]
  · intro s s2 initiatorId receiverId callId amount refundAmount h hfresh
    cases hi : findAccountByUserType s initiatorId .USER_WALLET with
    | none => simp [processCallPayment, hi] at h
    | some ia =>
    cases hr : findAccountByUserType s receiverId .USER_WALLET with
    | none => simp [processCallPayment, hi, hr] at h
    | some ra =>
    cases hv : findRevenueAccount s with
    | none => simp [processCallPayment, hi, hr, hv] at h
    | some va =>
    by_cases hpos : 0 < refundAmount
    · rw [processCallPayment_ok_refund s initiatorId receiverId callId amount refundAmount
        ia ra va hi hr hv hpos] at h
      injection h with h
      subst h
      constructor
      · show entrySumTxn (_ :: _ :: _ :: _ :: s.entries) s.nextId .CREDIT = amount
        rw [entrySumTxn_cons, entrySumTxn_cons, entrySumTxn_cons, entrySumTxn_cons,
          entrySumTxn_eq_zero _ _ _ hfresh]
        dsimp only
        rw [if_neg (by rintro ⟨hc, -⟩; omega),
          if_neg (fun hc => absurd hc.2 (by decide)),
          if_pos ⟨rfl, rfl⟩, if_pos ⟨rfl, rfl⟩]
        unfold revenueShareOf receiverShareOf
        omega
      · show entrySumTxn (_ :: _ :: _ :: _ :: s.entries) s.nextId .DEBIT = amount
        rw [entrySumTxn_cons, entrySumTxn_cons, entrySumTxn_cons, entrySumTxn_cons,
          entrySumTxn_eq_zero _ _ _ hfresh]
        dsimp only
        rw [if_neg (by rintro ⟨hc, -⟩; omega),
          if_pos ⟨rfl, rfl⟩,
          if_neg (fun hc => absurd hc.2 (by decide)),
          if_neg (fun hc => absurd hc.2 (by decide))]
        omega
    · rw [processCallPayment_ok_norefund s initiatorId receiverId callId amount refundAmount
        ia ra va hi hr hv hpos] at h
      injection h with h
      subst h
      constructor
      · show entrySumTxn (_ :: _ :: _ :: s.entries) s.nextId .CREDIT = amount
        rw [entrySumTxn_cons, entrySumTxn_cons, entrySumTxn_cons,
          entrySumTxn_eq_zero _ _ _ hfresh]
        dsimp only
        rw [if_neg (fun hc => absurd hc.2 (by decide)), if_pos ⟨rfl, rfl⟩, if_pos ⟨rfl, rfl⟩]
        unfold revenueShareOf receiverShareOf
        omega
      · show entrySumTxn (_ :: _ :: _ :: s.entries) s.nextId .DEBIT = amount
        rw [entrySumTxn_cons, entrySumTxn_cons, entrySumTxn_cons,
          entrySumTxn_eq_zero _ _ _ hfresh]
        dsimp only
        rw [if_pos ⟨rfl, rfl⟩, if_neg (fun hc => absurd hc.2 (by decide)),
          if_neg (fun hc => absurd hc.2 (by decide))]
        omega

/-- C1 amended witness: the concrete top-up run, through the general
theorem: one CREDIT of 10000 and no DEBIT. -/
theorem entry_conservation_per_operation_witness :
    entrySumTxn topUpState1.entries emptyState.nextId .CREDIT = 10000
    ∧ entrySumTxn topUpState1.entries emptyState.nextId .DEBIT = 0 :=
  entry_conservation_per_operation.2.1 emptyState topUpState1 "alice" "tok-1" 10000 10000
    rfl (by intro e he; simp [emptyState] at he)

/-! ### Claim C2 (amended) -/

theorem entrySumAcc_cons' (e : Entry) (l : List Entry) (aid : Nat) (d : EntryDirection) :
    entrySumAcc (e :: l) aid d
      = (if aid = e.accountId ∧ d = e.direction then (e.amount : Int) else 0)
        + entrySumAcc l aid d := by
  have hiff : (aid = e.accountId ∧ d = e.direction) = (e.accountId = aid ∧ e.direction = d) := by
    apply propext
    constructor
    · rintro ⟨a, b⟩; exact ⟨a.symm, b.symm⟩
    · rintro ⟨a, b⟩; exact ⟨a.symm, b.symm⟩
  rw [entrySumAcc_cons]
  simp only [hiff]

/-- C2 amended: processMessagePayment keeps every account's balance-entry
discrepancy unchanged (its balance updates and entries move in lockstep
inside one atomic unit), but holdFundsForCall, settleCallCharges and
refundHeldFunds change exactly the touched account's balance while writing
no entry, shifting that account's discrepancy by exactly the amount moved —
so balance equals net entries only until one of those operations (or a
registration seeding a balance) runs. -/
theorem balance_entry_discrepancy_behavior :
    (∀ (s s2 : LedgerState) (senderId receiverId : String) (amount : Nat) (aid : Nat),
        processMessagePayment s senderId receiverId amount = .ok s2 →
        discrepancy s2 aid = discrepancy s aid)
    ∧ (∀ (s s2 : LedgerState) (userId callId : String) (amount : Nat) (ua : Account) (aid : Nat),
        findAccountByUser s userId = some ua →
        holdFundsForCall s userId amount callId = .ok s2 →
        discrepancy s2 aid
          = discrepancy s aid - (if aid = ua.id then (amount : Int) else 0))
    ∧ (∀ (s s2 : LedgerState) (callId callerId receiverId : String) (d : Nat) (k : CallType)
          (ra : Account) (aid : Nat),
        findAccountByUser s receiverId = some ra →
        settleCallCharges s callId d k callerId receiverId = .ok s2 →
        discrepancy s2 aid
          = discrepancy s aid
            + (if aid = ra.id then (calculateActualCallCost d k : Int) else 0))
    ∧ (∀ (s s2 : LedgerState) (callId userId : String) (amount : Nat) (ua : Account) (aid : Nat),
        findAccountByUser s userId = some ua →
        refundHeldFunds s callId userId amount = .ok s2 →
        discrepancy s2 aid
          = discrepancy s aid + (if aid = ua.id then (amount : Int) else 0)) := by
  have hdc : (EntryDirection.CREDIT = EntryDirection.DEBIT) = False := by simp
  have hcd : (EntryDirection.DEBIT = EntryDirection.CREDIT) = False := by simp
  have hcc : (EntryDirection.CREDIT = EntryDirection.CREDIT) = True := by simp
  have hdd : (EntryDirection.DEBIT = EntryDirection.DEBIT) = True := by simp
  refine ⟨?_, ?_, ?_, ?_⟩
  · intro s s2 senderId receiverId amount aid h
    cases hs : findAccountByUserType s senderId .USER_WALLET with
    | none => simp [processMessagePayment, hs] at h
    | some sa =>
    cases hr : findAccountByUserType s receiverId .USER_WALLET with
    | none => simp [processMessagePayment, hs, hr] at h
    | some ra =>
    cases hv : findRevenueAccount s with
    | none => simp [processMessagePayment, hs, hr, hv] at h
    | some va =>
    by_cases hbal : sa.balance < (amount : Int)
    · simp only [processMessagePayment, hs, hr, hv] at h
      rw [if_pos hbal] at h
      exact absurd h (by simp)
    have hsome_sa := find?_idPred_isSome_of_mem (List.mem_of_find?_eq_some
      (show s.accounts.find? (userTypePred senderId .USER_WALLET) = some sa from hs))
    have hsome_ra := find?_idPred_isSome_of_mem (List.mem_of_find?_eq_some
      (show s.accounts.find? (userTypePred receiverId .USER_WALLET) = some ra from hr))
    have hsome_va := find?_idPred_isSome_of_mem (List.mem_of_find?_eq_some
      (show s.accounts.find? (typePred .REVENUE) = some va from hv))
    rw [processMessagePayment_ok s senderId receiverId amount sa ra va hs hr hv hbal] at h
    injection h with h
    subst h
    have hbal_sa : ((s.accounts.find? (idPred aid)).isSome ∧ aid = sa.id) = (aid = sa.id) := by
      apply propext
      constructor
      · rintro ⟨-, hx⟩; exact hx
      · intro hx; exact ⟨by rw [hx]; exact hsome_sa, hx⟩
    have hbal_ra : ((s.accounts.find? (idPred aid)).isSome ∧ aid = ra.id) = (aid = ra.id) := by
      apply propext
      constructor
      · rintro ⟨-, hx⟩; exact hx
      · intro hx; exact ⟨by rw [hx]; exact hsome_ra, hx⟩
    have hbal_va : ((s.accounts.find? (idPred aid)).isSome ∧ aid = va.id) = (aid = va.id) := by
      apply propext
      constructor
      · rintro ⟨-, hx⟩; exact hx
      · intro hx; exact ⟨by rw [hx]; exact hsome_va, hx⟩
    unfold discrepancy balanceOfId
    dsimp only
    rw [balanceInList_updateBalance, balanceInList_updateBalance, balanceInList_updateBalance]
    simp only [isSome_find?_updateBalance]
    simp only [hbal_sa, hbal_ra, hbal_va]
    simp only [entrySumAcc_cons']
    simp [hdc, hcd, hcc, hdd]
    split_ifs <;> omega
  · intro s s2 userId callId amount ua aid hu h
    by_cases hbal : ua.balance < (amount : Int)
    · simp only [holdFundsForCall, hu] at h
      rw [if_pos hbal] at h
      exact absurd h (by simp)
    have hsome : (s.accounts.find? (idPred ua.id)).isSome :=
      find?_idPred_isSome_of_mem (List.mem_of_find?_eq_some
        (show s.accounts.find? (userPred userId) = some ua from hu))
    rw [holdFundsForCall_ok s userId callId amount ua hu hbal] at h
    injection h with h
    subst h
    unfold discrepancy balanceOfId
    dsimp only
    rw [balanceInList_updateBalance]
    by_cases haid : aid = ua.id
    · rw [if_pos ⟨by rw [haid]; exact hsome, haid⟩, if_pos haid]
      omega
    · rw [if_neg (fun hc => haid hc.2), if_neg haid]
      omega
  · intro s s2 callId callerId receiverId d k ra aid hu h
    have hsome : (s.accounts.find? (idPred ra.id)).isSome :=
      find?_idPred_isSome_of_mem (List.mem_of_find?_eq_some
        (show s.accounts.find? (userPred receiverId) = some ra from hu))
    rw [settleCallCharges_ok s callId callerId receiverId d k ra hu] at h
    injection h with h
    subst h
    unfold discrepancy balanceOfId
    dsimp only
    rw [balanceInList_updateBalance]
    by_cases haid : aid = ra.id
    · rw [if_pos ⟨by rw [haid]; exact hsome, haid⟩, if_pos haid]
      omega
    · rw [if_neg (fun hc => haid hc.2), if_neg haid]
      omega
  · intro s s2 callId userId amount ua aid hu h
    have hsome : (s.accounts.find? (idPred ua.id)).isSome :=
      find?_idPred_isSome_of_mem (List.mem_of_find?_eq_some
        (show s.accounts.find? (userPred userId) = some ua from hu))
    rw [refundHeldFunds_ok s callId userId amount ua hu] at h
    injection h with h
    subst h
    unfold discrepancy balanceOfId
    dsimp only
    rw [balanceInList_updateBalance]
    by_cases haid : aid = ua.id
    · rw [if_pos ⟨by rw [haid]; exact hsome, haid⟩, if_pos haid]
      omega
    · rw [if_neg (fun hc => haid hc.2), if_neg haid]
      omega

/-- C2 amended witness: the concrete hold from the counterexample run,
through the general theorem — the held account's discrepancy drops by
exactly the held amount. -/
theorem balance_entry_discrepancy_behavior_witness :
    discrepancy holdState2 1
      = discrepancy topUpState1 1 - (if 1 = 1 then ((500 : Nat) : Int) else 0) :=
  balance_entry_discrepancy_behavior.2.1 topUpState1 holdState2 "alice" "call1" 500
    ⟨1, some "alice", .USER_WALLET, 10000⟩ 1 (by decide) rfl

end Influbee
